import Mathlib

/-!
Verification of the TemperatureZero library (src/src/TemperatureZero.cpp),
a SAMD21 internal-temperature driver.  The floating-point calibration
arithmetic is modelled over the rationals; the ADC register traffic of
readInternalTemperatureRaw is modelled as a pure function on an explicit
register-file state, with the hardware-produced conversion results passed
as parameters.
-/

set_option maxHeartbeats 1000000

/-- 4095.0, full scale of a 12-bit ADC result (line 42 of the source). -/
def ADC_12BIT_FULL_SCALE_VALUE_FLOAT : ℚ := 4095

/-- 1000.0, millivolt divider for the 1V-reference fuses (line 41). -/
def INT1V_DIVIDER_1000 : ℚ := 1000

/-- Modelled from the spec: TemperatureZero.h (not present under src/) declares nine
averaging-mode selectors; spec section 3 lists nine enumerated modes for
1, 2, 4, 8, 16, 32, 64, 128, 256 samples.  We number them 0..8 in sample order. -/
def TZ_AVERAGING_1 : Nat := 0

/-- Modelled from the spec: averaging-mode selector for 2 samples. -/
def TZ_AVERAGING_2 : Nat := 1

/-- Modelled from the spec: averaging-mode selector for 4 samples. -/
def TZ_AVERAGING_4 : Nat := 2

/-- Modelled from the spec: averaging-mode selector for 8 samples. -/
def TZ_AVERAGING_8 : Nat := 3

/-- Modelled from the spec: averaging-mode selector for 16 samples. -/
def TZ_AVERAGING_16 : Nat := 4

/-- Modelled from the spec: averaging-mode selector for 32 samples. -/
def TZ_AVERAGING_32 : Nat := 5

/-- Modelled from the spec: averaging-mode selector for 64 samples. -/
def TZ_AVERAGING_64 : Nat := 6

/-- Modelled from the spec: averaging-mode selector for 128 samples. -/
def TZ_AVERAGING_128 : Nat := 7

/-- Modelled from the spec: averaging-mode selector for 256 samples. -/
def TZ_AVERAGING_256 : Nat := 8

/-- SAMD21 device-header constant: CTRLB.RESSEL value for 12-bit results. -/
def ADC_CTRLB_RESSEL_12BIT : Nat := 0x0

/-- SAMD21 device-header constant: CTRLB.PRESCALER field set to DIV256 (value 6 at bit 8). -/
def ADC_CTRLB_PRESCALER_DIV256 : Nat := 0x600

/-- SAMD21 device-header macro: SAMPCTRL.SAMPLEN field (bits 0..5). -/
def ADC_SAMPCTRL_SAMPLEN (x : Nat) : Nat := x &&& 0x3f

/-- SAMD21 device-header constant: INPUTCTRL.GAIN value for 1x gain. -/
def ADC_INPUTCTRL_GAIN_1X_Val : Nat := 0x0

/-- SAMD21 device-header constant: REFCTRL.REFSEL value for the internal 1V reference. -/
def ADC_REFCTRL_REFSEL_INT1V_Val : Nat := 0x0

/-- SAMD21 device-header constant: INPUTCTRL.MUXPOS value for the temperature channel. -/
def ADC_INPUTCTRL_MUXPOS_TEMP_Val : Nat := 0x18

/-- SAMD21 device-header constant: INPUTCTRL.MUXNEG value for internal ground. -/
def ADC_INPUTCTRL_MUXNEG_GND_Val : Nat := 0x18

/-- SAMD21 device-header constant: AVGCTRL.SAMPLENUM selector for 2 samples. -/
def ADC_AVGCTRL_SAMPLENUM_2 : Nat := 0x1

/-- SAMD21 device-header constant: AVGCTRL.SAMPLENUM selector for 4 samples. -/
def ADC_AVGCTRL_SAMPLENUM_4 : Nat := 0x2

/-- SAMD21 device-header constant: AVGCTRL.SAMPLENUM selector for 8 samples. -/
def ADC_AVGCTRL_SAMPLENUM_8 : Nat := 0x3

/-- SAMD21 device-header constant: AVGCTRL.SAMPLENUM selector for 16 samples. -/
def ADC_AVGCTRL_SAMPLENUM_16 : Nat := 0x4

/-- SAMD21 device-header constant: AVGCTRL.SAMPLENUM selector for 32 samples. -/
def ADC_AVGCTRL_SAMPLENUM_32 : Nat := 0x5

/-- SAMD21 device-header constant: AVGCTRL.SAMPLENUM selector for 64 samples. -/
def ADC_AVGCTRL_SAMPLENUM_64 : Nat := 0x6

/-- SAMD21 device-header constant: AVGCTRL.SAMPLENUM selector for 128 samples. -/
def ADC_AVGCTRL_SAMPLENUM_128 : Nat := 0x7

/-- SAMD21 device-header constant: AVGCTRL.SAMPLENUM selector for 256 samples. -/
def ADC_AVGCTRL_SAMPLENUM_256 : Nat := 0x8

/-- SAMD21 device-header macro: AVGCTRL.ADJRES field (3 bits at bit 4). -/
def ADC_AVGCTRL_ADJRES (x : Nat) : Nat := (x &&& 0x7) <<< 4

/-- The member state of a TemperatureZero object (fields declared in
TemperatureZero.h, written by the methods in TemperatureZero.cpp). -/
structure TemperatureZero where
  _averaging : Nat
  _isUserCalEnabled : Bool
  _userCalGainCorrection : ℚ
  _userCalOffsetCorrection : ℚ
  _roomTemperature : ℚ
  _hotTemperature : ℚ
  _roomReading : Nat
  _hotReading : Nat
  _roomInt1vRef : ℚ
  _hotInt1vRef : ℚ
  _roomVoltageCompensated : ℚ
  _hotVoltageCompensated : ℚ

namespace TemperatureZero

/-- Lines 91-99: extra safe decimal to fractional conversion.  The C++
parameter type is uint8_t, so the function itself only ever sees 0..255. -/
def convert_dec_to_frac (val : Nat) : ℚ :=
  if val < 10 then (val : ℚ) / 10
  else if val < 100 then (val : ℚ) / 100
  else (val : ℚ) / 1000

/-- A C++ call convert_dec_to_frac(n): the argument is narrowed to the
uint8_t parameter, i.e. reduced modulo 256, before the body runs. -/
def convert_dec_to_frac_call (n : Nat) : ℚ :=
  convert_dec_to_frac (n % 256)

/-- Lines 46-64: getFactoryCalibration.  The fuse-word reads at fixed
physical addresses (lines 48-59) are modelled by passing the already
extracted bit-field values as arguments: the two uint8 temperature parts,
the two 12-bit ADC readings, and the two int8 1V-reference deltas. -/
def getFactoryCalibration (tz : TemperatureZero)
    (roomInteger roomDecimal roomReadingFuse : Nat)
    (hotInteger hotDecimal hotReadingFuse : Nat)
    (roomInt1vRefRaw hotInt1vRefRaw : Int) : TemperatureZero :=
  let roomTemperature : ℚ := (roomInteger : ℚ) + convert_dec_to_frac roomDecimal
  let hotTemperature : ℚ := (hotInteger : ℚ) + convert_dec_to_frac hotDecimal
  let roomInt1vRef : ℚ := 1 - (roomInt1vRefRaw : ℚ) / INT1V_DIVIDER_1000
  let hotInt1vRef : ℚ := 1 - (hotInt1vRefRaw : ℚ) / INT1V_DIVIDER_1000
  let roomVoltageCompensated : ℚ :=
    ((roomReadingFuse : ℚ) * roomInt1vRef) / ADC_12BIT_FULL_SCALE_VALUE_FLOAT
  let hotVoltageCompensated : ℚ :=
    ((hotReadingFuse : ℚ) * hotInt1vRef) / ADC_12BIT_FULL_SCALE_VALUE_FLOAT
  { tz with
    _roomTemperature := roomTemperature
    _roomReading := roomReadingFuse
    _hotTemperature := hotTemperature
    _hotReading := hotReadingFuse
    _roomInt1vRef := roomInt1vRef
    _hotInt1vRef := hotInt1vRef
    _roomVoltageCompensated := roomVoltageCompensated
    _hotVoltageCompensated := hotVoltageCompensated }

/-- Lines 15-20: init().  Sets default averaging and clears the user-cal
flag, then loads the factory calibration (the fuse inputs are passed
through).  The wakeup() call only touches ADC/VREF hardware state. -/
def init (tz : TemperatureZero)
    (roomInteger roomDecimal roomReadingFuse : Nat)
    (hotInteger hotDecimal hotReadingFuse : Nat)
    (roomInt1vRefRaw hotInt1vRefRaw : Int) : TemperatureZero :=
  getFactoryCalibration
    { tz with _averaging := TZ_AVERAGING_64, _isUserCalEnabled := false }
    roomInteger roomDecimal roomReadingFuse
    hotInteger hotDecimal hotReadingFuse
    roomInt1vRefRaw hotInt1vRefRaw

/-- Lines 30-32: setAveraging. -/
def setAveraging (tz : TemperatureZero) (averaging : Nat) : TemperatureZero :=
  { tz with _averaging := averaging }

/-- Lines 102-110: setUserCalibration2P.  The offset is stored first and
the gain is computed from the just-stored offset. -/
def setUserCalibration2P (tz : TemperatureZero)
    (userCalColdGroundTruth userCalColdMeasurement : ℚ)
    (userCalHotGroundTruth userCalHotMeasurement : ℚ)
    (isEnabled : Bool) : TemperatureZero :=
  let userCalOffsetCorrection :=
    userCalColdMeasurement -
      userCalColdGroundTruth * (userCalHotMeasurement - userCalColdMeasurement) /
        (userCalHotGroundTruth - userCalColdGroundTruth)
  let userCalGainCorrection :=
    userCalHotGroundTruth / (userCalHotMeasurement - userCalOffsetCorrection)
  { tz with
    _userCalOffsetCorrection := userCalOffsetCorrection
    _userCalGainCorrection := userCalGainCorrection
    _isUserCalEnabled := isEnabled }

/-- Lines 113-119: setUserCalibration. -/
def setUserCalibration (tz : TemperatureZero)
    (userCalGainCorrection userCalOffsetCorrection : ℚ)
    (isEnabled : Bool) : TemperatureZero :=
  { tz with
    _userCalOffsetCorrection := userCalOffsetCorrection
    _userCalGainCorrection := userCalGainCorrection
    _isUserCalEnabled := isEnabled }

/-- Lines 121-123: enableUserCalibration. -/
def enableUserCalibration (tz : TemperatureZero) (isEnabled : Bool) : TemperatureZero :=
  { tz with _isUserCalEnabled := isEnabled }

/-- Lines 216-256: raw2temp, the two-pass converter. -/
def raw2temp (tz : TemperatureZero) (adcReading : Nat) : ℚ :=
  let meaurementVoltage : ℚ := (adcReading : ℚ) / ADC_12BIT_FULL_SCALE_VALUE_FLOAT
  let coarse_temp : ℚ :=
    tz._roomTemperature +
      (((tz._hotTemperature - tz._roomTemperature) /
          (tz._hotVoltageCompensated - tz._roomVoltageCompensated)) *
        (meaurementVoltage - tz._roomVoltageCompensated))
  let ref1VAtMeasurement : ℚ :=
    tz._roomInt1vRef +
      (((tz._hotInt1vRef - tz._roomInt1vRef) * (coarse_temp - tz._roomTemperature)) /
        (tz._hotTemperature - tz._roomTemperature))
  let measureVoltageCompensated : ℚ :=
    ((adcReading : ℚ) * ref1VAtMeasurement) / ADC_12BIT_FULL_SCALE_VALUE_FLOAT
  let refinedTemp : ℚ :=
    tz._roomTemperature +
      (((tz._hotTemperature - tz._roomTemperature) /
          (tz._hotVoltageCompensated - tz._roomVoltageCompensated)) *
        (measureVoltageCompensated - tz._roomVoltageCompensated))
  if tz._isUserCalEnabled then
    (refinedTemp - tz._userCalOffsetCorrection) * tz._userCalGainCorrection
  else refinedTemp

/-- The converter exactly as the spec (section 4.4) words it, with the
spec's own association of the interpolation formulas.  Written from the
spec text, to be compared with raw2temp, which is written from the code. -/
def raw2tempSpecForm (tz : TemperatureZero) (adcReading : Nat) : ℚ :=
  let vMeas : ℚ := (adcReading : ℚ) / 4095
  let tCoarse : ℚ :=
    tz._roomTemperature +
      (tz._hotTemperature - tz._roomTemperature) *
        (vMeas - tz._roomVoltageCompensated) /
        (tz._hotVoltageCompensated - tz._roomVoltageCompensated)
  let vRef : ℚ :=
    tz._roomInt1vRef +
      (tz._hotInt1vRef - tz._roomInt1vRef) * (tCoarse - tz._roomTemperature) /
        (tz._hotTemperature - tz._roomTemperature)
  let vMeasCompensated : ℚ := (adcReading : ℚ) * vRef / 4095
  let tRefined : ℚ :=
    tz._roomTemperature +
      (tz._hotTemperature - tz._roomTemperature) *
        (vMeasCompensated - tz._roomVoltageCompensated) /
        (tz._hotVoltageCompensated - tz._roomVoltageCompensated)
  if tz._isUserCalEnabled then
    (tRefined - tz._userCalOffsetCorrection) * tz._userCalGainCorrection
  else tRefined

/-- The method raw2temp in state-passing form: its body (lines 216-256)
assigns no member field, so the object part of the result is the input
object unchanged and the value part is the pure function raw2temp. -/
def raw2tempM (tz : TemperatureZero) (adcReading : Nat) : TemperatureZero × ℚ :=
  (tz, raw2temp tz adcReading)

/-- The user-visible ADC register file touched by readInternalTemperatureRaw. -/
structure AdcState where
  ctrlb : Nat
  sampctrl : Nat
  gain : Nat
  refsel : Nat
  muxpos : Nat
  muxneg : Nat
  enable : Nat
  avgctrl : Nat
  intflagResrdy : Bool
  result : Nat

/-- Line 129: oldSampling reads ADC SAMPCTRL. -/
def oldSampling_of (s : AdcState) : Nat := s.sampctrl

/-- Line 130: oldSampleAveraging also reads ADC SAMPCTRL (not AVGCTRL). -/
def oldSampleAveraging_of (s : AdcState) : Nat := s.sampctrl

/-- Lines 159-187: the averaging switch.  Each enumerated mode writes a
SAMPLENUM and ADJRES pair into AVGCTRL; a value matching no case falls
through the switch and AVGCTRL keeps the value it already held. -/
def avgctrlSwitch (averaging : Nat) (avgctrl : Nat) : Nat :=
  if averaging = TZ_AVERAGING_1 then 0
  else if averaging = TZ_AVERAGING_2 then
    ADC_AVGCTRL_SAMPLENUM_2 ||| ADC_AVGCTRL_ADJRES 0x1
  else if averaging = TZ_AVERAGING_4 then
    ADC_AVGCTRL_SAMPLENUM_4 ||| ADC_AVGCTRL_ADJRES 0x2
  else if averaging = TZ_AVERAGING_8 then
    ADC_AVGCTRL_SAMPLENUM_8 ||| ADC_AVGCTRL_ADJRES 0x3
  else if averaging = TZ_AVERAGING_16 then
    ADC_AVGCTRL_SAMPLENUM_16 ||| ADC_AVGCTRL_ADJRES 0x4
  else if averaging = TZ_AVERAGING_32 then
    ADC_AVGCTRL_SAMPLENUM_32 ||| ADC_AVGCTRL_ADJRES 0x4
  else if averaging = TZ_AVERAGING_64 then
    ADC_AVGCTRL_SAMPLENUM_64 ||| ADC_AVGCTRL_ADJRES 0x4
  else if averaging = TZ_AVERAGING_128 then
    ADC_AVGCTRL_SAMPLENUM_128 ||| ADC_AVGCTRL_ADJRES 0x4
  else if averaging = TZ_AVERAGING_256 then
    ADC_AVGCTRL_SAMPLENUM_256 ||| ADC_AVGCTRL_ADJRES 0x4
  else avgctrl

/-- Lines 126-212: readInternalTemperatureRaw as a pure register-file
transformer.  Sync-busy spins are no-ops on the register file.  The two
hardware conversions (the mandatory discard and the real measurement)
deliver the values conv1 and conv2 into RESULT and set the RESRDY flag;
writing ADC_INTFLAG_RESRDY to INTFLAG clears the flag. -/
def readInternalTemperatureRaw (averaging : Nat) (s0 : AdcState)
    (conv1 conv2 : Nat) : AdcState × Nat :=
  let oldReadResolution := s0.ctrlb
  let oldSampling := oldSampling_of s0
  let oldSampleAveraging := oldSampleAveraging_of s0
  let oldReferenceGain := s0.gain
  let oldReferenceSelect := s0.refsel
  let s := { s0 with ctrlb := ADC_CTRLB_RESSEL_12BIT ||| ADC_CTRLB_PRESCALER_DIV256 }
  let s := { s with sampctrl := ADC_SAMPCTRL_SAMPLEN 0x3f }
  let s := { s with gain := ADC_INPUTCTRL_GAIN_1X_Val }
  let s := { s with refsel := ADC_REFCTRL_REFSEL_INT1V_Val }
  let s := { s with muxpos := ADC_INPUTCTRL_MUXPOS_TEMP_Val,
                    muxneg := ADC_INPUTCTRL_MUXNEG_GND_Val }
  let s := { s with enable := 1 }
  let s := { s with result := conv1, intflagResrdy := true }
  let s := { s with intflagResrdy := false }
  let s := { s with avgctrl := avgctrlSwitch averaging s.avgctrl }
  let s := { s with result := conv2, intflagResrdy := true }
  let adcReading := s.result
  let s := { s with intflagResrdy := false }
  let s := { s with enable := 0 }
  let s := { s with ctrlb := oldReadResolution }
  let s := { s with sampctrl := oldSampling }
  let s := { s with sampctrl := oldSampleAveraging }
  let s := { s with gain := oldReferenceGain }
  let s := { s with refsel := oldReferenceSelect }
  (s, adcReading)

/-- Lines 36-39: readInternalTemperature composes the ADC driver and the
converter. -/
def readInternalTemperature (tz : TemperatureZero) (s0 : AdcState)
    (conv1 conv2 : Nat) : ℚ :=
  raw2temp tz (readInternalTemperatureRaw tz._averaging s0 conv1 conv2).2

/-- A freshly constructed object with all members zeroed (the C++
constructor, line 12, initializes nothing; any concrete pre-state works). -/
def tzZero : TemperatureZero := ⟨0, false, 0, 0, 0, 0, 0, 0, 0, 0, 0, 0⟩

/-- The seed factory calibration of spec section 8: 25.0 / 85.0 degC,
readings 2000 / 3000, 1V-reference deltas 0 mV (room) and 10 mV (hot),
i.e. references 1.000 V and 0.990 V. -/
def tzSeed : TemperatureZero := init tzZero 25 0 2000 85 0 3000 0 10

/-- A valid factory calibration with strong reference drift: deltas
-100 mV and 100 mV give references 1.100 V (room) and 0.900 V (hot). -/
def tzDrift : TemperatureZero := init tzZero 25 0 2000 85 0 3000 (-100) 100

/-- A valid factory calibration with zero reference deltas: both
references exactly 1.000 V. -/
def tzFlat : TemperatureZero := init tzZero 25 0 2000 85 0 3000 0 0

/-- A valid factory calibration with zero reference deltas whose ADC
readings are reversed (room 3000, hot 2000), giving a negative
interpolation slope. -/
def tzInverted : TemperatureZero := init tzZero 25 0 3000 85 0 2000 0 0

/-- C1: for every raw reading and every factory-calibration state, raw2temp
computes exactly the spec's two-pass algorithm (coarse interpolation,
reference estimate at the coarse temperature, compensated voltage, refined
interpolation, and the user correction only when enabled). -/
theorem raw2temp_matches_spec_two_pass (tz : TemperatureZero) (adcReading : Nat) :
    raw2temp tz adcReading = raw2tempSpecForm tz adcReading := by
  cases h : tz._isUserCalEnabled <;>
    simp only [raw2temp, raw2tempSpecForm, ADC_12BIT_FULL_SCALE_VALUE_FLOAT, h,
      Bool.false_eq_true, if_false, if_true] <;>
    ring

/-- C2 (amended): with user calibration disabled and a consistent, valid
factory calibration, feeding the factory ADC readings back into raw2temp
reproduces the factory temperatures only up to an exact second-order
residual: at room the error is
(Th - Tr) * (Rroom/4095)^2 * (vhot - vroom) * (1 - vroom) / (Vhot - Vroom)^2
and at hot the same with Rhot and (1 - vhot).  The identity is exact when
the corresponding reference equals 1 V, but the residual is not bounded by
0.01 degC for every valid calibration. -/
theorem raw2temp_calibration_identity_residual (tz : TemperatureZero)
    (hVr : tz._roomVoltageCompensated = (tz._roomReading : ℚ) * tz._roomInt1vRef / 4095)
    (hVh : tz._hotVoltageCompensated = (tz._hotReading : ℚ) * tz._hotInt1vRef / 4095)
    (hT : tz._roomTemperature < tz._hotTemperature)
    (hV : tz._hotVoltageCompensated ≠ tz._roomVoltageCompensated)
    (hcal : tz._isUserCalEnabled = false) :
    raw2temp tz tz._roomReading - tz._roomTemperature =
      (tz._hotTemperature - tz._roomTemperature) * ((tz._roomReading : ℚ) / 4095) ^ 2 *
        (tz._hotInt1vRef - tz._roomInt1vRef) * (1 - tz._roomInt1vRef) /
        (tz._hotVoltageCompensated - tz._roomVoltageCompensated) ^ 2 ∧
    raw2temp tz tz._hotReading - tz._hotTemperature =
      (tz._hotTemperature - tz._roomTemperature) * ((tz._hotReading : ℚ) / 4095) ^ 2 *
        (tz._hotInt1vRef - tz._roomInt1vRef) * (1 - tz._hotInt1vRef) /
        (tz._hotVoltageCompensated - tz._roomVoltageCompensated) ^ 2 := by
  have hT' : tz._hotTemperature - tz._roomTemperature ≠ 0 := sub_ne_zero.mpr (ne_of_gt hT)
  have hV' : tz._hotVoltageCompensated - tz._roomVoltageCompensated ≠ 0 := sub_ne_zero.mpr hV
  rw [hVr, hVh] at hV'
  have hV2 : (tz._hotReading : ℚ) * tz._hotInt1vRef -
      (tz._roomReading : ℚ) * tz._roomInt1vRef ≠ 0 := by
    intro h
    exact hV' (by rw [div_sub_div_same, h, zero_div])
  refine ⟨?_, ?_⟩ <;>
  · simp only [raw2temp, ADC_12BIT_FULL_SCALE_VALUE_FLOAT, hcal, Bool.false_eq_true,
      if_false]
    rw [hVr, hVh]
    field_simp [hT', hV2]
    ring

/-- C2 witness: the residual theorem applied to the seed calibration of
spec section 8. -/
theorem raw2temp_calibration_identity_residual_witness :
    tzSeed._roomVoltageCompensated = (tzSeed._roomReading : ℚ) * tzSeed._roomInt1vRef / 4095 ∧
    tzSeed._hotVoltageCompensated = (tzSeed._hotReading : ℚ) * tzSeed._hotInt1vRef / 4095 ∧
    tzSeed._roomTemperature < tzSeed._hotTemperature ∧
    tzSeed._hotVoltageCompensated ≠ tzSeed._roomVoltageCompensated ∧
    tzSeed._isUserCalEnabled = false ∧
    (raw2temp tzSeed tzSeed._roomReading - tzSeed._roomTemperature =
      (tzSeed._hotTemperature - tzSeed._roomTemperature) *
          ((tzSeed._roomReading : ℚ) / 4095) ^ 2 *
          (tzSeed._hotInt1vRef - tzSeed._roomInt1vRef) * (1 - tzSeed._roomInt1vRef) /
          (tzSeed._hotVoltageCompensated - tzSeed._roomVoltageCompensated) ^ 2 ∧
     raw2temp tzSeed tzSeed._hotReading - tzSeed._hotTemperature =
      (tzSeed._hotTemperature - tzSeed._roomTemperature) *
          ((tzSeed._hotReading : ℚ) / 4095) ^ 2 *
          (tzSeed._hotInt1vRef - tzSeed._roomInt1vRef) * (1 - tzSeed._hotInt1vRef) /
          (tzSeed._hotVoltageCompensated - tzSeed._roomVoltageCompensated) ^ 2) := by
  have h1 : tzSeed._roomVoltageCompensated =
      (tzSeed._roomReading : ℚ) * tzSeed._roomInt1vRef / 4095 := by
    norm_num [tzSeed, tzZero, init, getFactoryCalibration, convert_dec_to_frac,
      INT1V_DIVIDER_1000, ADC_12BIT_FULL_SCALE_VALUE_FLOAT, TZ_AVERAGING_64]
  have h2 : tzSeed._hotVoltageCompensated =
      (tzSeed._hotReading : ℚ) * tzSeed._hotInt1vRef / 4095 := by
    norm_num [tzSeed, tzZero, init, getFactoryCalibration, convert_dec_to_frac,
      INT1V_DIVIDER_1000, ADC_12BIT_FULL_SCALE_VALUE_FLOAT, TZ_AVERAGING_64]
  have h3 : tzSeed._roomTemperature < tzSeed._hotTemperature := by
    norm_num [tzSeed, tzZero, init, getFactoryCalibration, convert_dec_to_frac,
      INT1V_DIVIDER_1000, ADC_12BIT_FULL_SCALE_VALUE_FLOAT, TZ_AVERAGING_64]
  have h4 : tzSeed._hotVoltageCompensated ≠ tzSeed._roomVoltageCompensated := by
    norm_num [tzSeed, tzZero, init, getFactoryCalibration, convert_dec_to_frac,
      INT1V_DIVIDER_1000, ADC_12BIT_FULL_SCALE_VALUE_FLOAT, TZ_AVERAGING_64]
  have h5 : tzSeed._isUserCalEnabled = false := by
    norm_num [tzSeed, tzZero, init, getFactoryCalibration, TZ_AVERAGING_64]
  exact ⟨h1, h2, h3, h4, h5, raw2temp_calibration_identity_residual tzSeed h1 h2 h3 h4 h5⟩

/-- C2 counterexample: for the valid seed calibration of spec section 8
(25.0 / 85.0 degC, readings 2000 / 3000, references 1.000 V / 0.990 V),
raw2temp at the hot factory reading misses the hot factory temperature by
540/9409, about 0.057 degC, which is more than the claimed 0.01 degC. -/
theorem raw2temp_calibration_identity_fails_at_seed :
    tzSeed._roomTemperature < tzSeed._hotTemperature ∧
    tzSeed._hotVoltageCompensated ≠ tzSeed._roomVoltageCompensated ∧
    tzSeed._isUserCalEnabled = false ∧
    1 / 100 < tzSeed._hotTemperature - raw2temp tzSeed tzSeed._hotReading := by
  norm_num [tzSeed, tzZero, init, getFactoryCalibration, raw2temp, convert_dec_to_frac,
    INT1V_DIVIDER_1000, ADC_12BIT_FULL_SCALE_VALUE_FLOAT, TZ_AVERAGING_64]

/-- C3 (amended): with user calibration disabled and the hot and room 1V
references equal, raw2temp is strictly monotonic in the raw reading
whenever the product of the interpolation slope with the reference is
nonzero: strictly increasing when the product is positive and strictly
decreasing when it is negative.  With unequal references the refined
output is quadratic in the raw reading and need not be monotonic on
0..4095. -/
theorem raw2temp_strict_mono_of_equal_refs (tz : TemperatureZero)
    (hv : tz._hotInt1vRef = tz._roomInt1vRef)
    (hcal : tz._isUserCalEnabled = false)
    (raw1 raw2 : Nat) (h12 : raw1 < raw2) :
    (0 < (tz._hotTemperature - tz._roomTemperature) /
        (tz._hotVoltageCompensated - tz._roomVoltageCompensated) * tz._roomInt1vRef →
      raw2temp tz raw1 < raw2temp tz raw2) ∧
    ((tz._hotTemperature - tz._roomTemperature) /
        (tz._hotVoltageCompensated - tz._roomVoltageCompensated) * tz._roomInt1vRef < 0 →
      raw2temp tz raw2 < raw2temp tz raw1) := by
  have key : raw2temp tz raw2 - raw2temp tz raw1 =
      ((tz._hotTemperature - tz._roomTemperature) /
          (tz._hotVoltageCompensated - tz._roomVoltageCompensated) * tz._roomInt1vRef) *
        (((raw2 : ℚ) - (raw1 : ℚ)) / 4095) := by
    simp only [raw2temp, ADC_12BIT_FULL_SCALE_VALUE_FLOAT, hcal, Bool.false_eq_true,
      if_false, hv]
    ring
  have hr : (0 : ℚ) < ((raw2 : ℚ) - (raw1 : ℚ)) / 4095 := by
    have h : (raw1 : ℚ) < (raw2 : ℚ) := by exact_mod_cast h12
    have := sub_pos.mpr h
    positivity
  constructor
  · intro hs
    nlinarith [mul_pos hs hr, key]
  · intro hs
    nlinarith [mul_neg_of_neg_of_pos hs hr, key]

/-- C3 witness: the monotonicity theorem applied to the zero-drift
calibration (positive slope, increasing, raws 1000 < 3000) and to the
reversed-readings calibration (negative slope, decreasing, same raws). -/
theorem raw2temp_strict_mono_of_equal_refs_witness :
    (tzFlat._hotInt1vRef = tzFlat._roomInt1vRef ∧
     tzFlat._isUserCalEnabled = false ∧
     1000 < 3000 ∧
     0 < (tzFlat._hotTemperature - tzFlat._roomTemperature) /
        (tzFlat._hotVoltageCompensated - tzFlat._roomVoltageCompensated) *
        tzFlat._roomInt1vRef ∧
     raw2temp tzFlat 1000 < raw2temp tzFlat 3000) ∧
    (tzInverted._hotInt1vRef = tzInverted._roomInt1vRef ∧
     tzInverted._isUserCalEnabled = false ∧
     (tzInverted._hotTemperature - tzInverted._roomTemperature) /
        (tzInverted._hotVoltageCompensated - tzInverted._roomVoltageCompensated) *
        tzInverted._roomInt1vRef < 0 ∧
     raw2temp tzInverted 3000 < raw2temp tzInverted 1000) := by
  have h1 : tzFlat._hotInt1vRef = tzFlat._roomInt1vRef := by
    norm_num [tzFlat, tzZero, init, getFactoryCalibration, INT1V_DIVIDER_1000,
      TZ_AVERAGING_64]
  have h2 : tzFlat._isUserCalEnabled = false := by
    norm_num [tzFlat, tzZero, init, getFactoryCalibration, TZ_AVERAGING_64]
  have h3 : 0 < (tzFlat._hotTemperature - tzFlat._roomTemperature) /
      (tzFlat._hotVoltageCompensated - tzFlat._roomVoltageCompensated) *
      tzFlat._roomInt1vRef := by
    norm_num [tzFlat, tzZero, init, getFactoryCalibration, convert_dec_to_frac,
      INT1V_DIVIDER_1000, ADC_12BIT_FULL_SCALE_VALUE_FLOAT, TZ_AVERAGING_64]
  have h4 : tzInverted._hotInt1vRef = tzInverted._roomInt1vRef := by
    norm_num [tzInverted, tzZero, init, getFactoryCalibration, INT1V_DIVIDER_1000,
      TZ_AVERAGING_64]
  have h5 : tzInverted._isUserCalEnabled = false := by
    norm_num [tzInverted, tzZero, init, getFactoryCalibration, TZ_AVERAGING_64]
  have h6 : (tzInverted._hotTemperature - tzInverted._roomTemperature) /
      (tzInverted._hotVoltageCompensated - tzInverted._roomVoltageCompensated) *
      tzInverted._roomInt1vRef < 0 := by
    norm_num [tzInverted, tzZero, init, getFactoryCalibration, convert_dec_to_frac,
      INT1V_DIVIDER_1000, ADC_12BIT_FULL_SCALE_VALUE_FLOAT, TZ_AVERAGING_64]
  exact ⟨⟨h1, h2, by norm_num, h3,
      (raw2temp_strict_mono_of_equal_refs tzFlat h1 h2 1000 3000 (by norm_num)).1 h3⟩,
    ⟨h4, h5, h6,
      (raw2temp_strict_mono_of_equal_refs tzInverted h4 h5 1000 3000 (by norm_num)).2 h6⟩⟩

/-- C3 counterexample: a valid factory calibration with nonzero slope
(25.0 / 85.0 degC, readings 2000 / 3000, references 1.100 V / 0.900 V)
under which raw2temp rises from raw 0 to raw 2475 and falls from raw 2475
to raw 4095, and even takes equal values at the distinct raws 855 and
4095, so it is not strictly monotonic on the domain. -/
theorem raw2temp_not_monotonic_with_ref_drift :
    tzDrift._roomTemperature < tzDrift._hotTemperature ∧
    tzDrift._hotVoltageCompensated ≠ tzDrift._roomVoltageCompensated ∧
    (tzDrift._hotTemperature - tzDrift._roomTemperature) /
      (tzDrift._hotVoltageCompensated - tzDrift._roomVoltageCompensated) ≠ 0 ∧
    tzDrift._isUserCalEnabled = false ∧
    raw2temp tzDrift 0 < raw2temp tzDrift 2475 ∧
    raw2temp tzDrift 4095 < raw2temp tzDrift 2475 ∧
    raw2temp tzDrift 855 = raw2temp tzDrift 4095 := by
  norm_num [tzDrift, tzZero, init, getFactoryCalibration, raw2temp, convert_dec_to_frac,
    INT1V_DIVIDER_1000, ADC_12BIT_FULL_SCALE_VALUE_FLOAT, TZ_AVERAGING_64]

/-- C4 (amended): setUserCalibration2P stores exactly
offset = cold_measured - cold_truth * (hot_measured - cold_measured) / (hot_truth - cold_truth)
and then gain = hot_truth / (hot_measured - offset) with the just-stored
offset; moreover, whenever hot_truth differs from cold_truth and from 0
and the two measurements differ, this stored pair is the conventional
two-point fit: the correction (x - offset) * gain maps cold_measured to
cold_truth and hot_measured to hot_truth, for every cold_truth and not
only for cold_truth = 0. -/
theorem setUserCalibration2P_exact_two_point_fit (tz : TemperatureZero)
    (userCalColdGroundTruth userCalColdMeasurement : ℚ)
    (userCalHotGroundTruth userCalHotMeasurement : ℚ) (isEnabled : Bool)
    (htc : userCalHotGroundTruth ≠ userCalColdGroundTruth)
    (hmc : userCalHotMeasurement ≠ userCalColdMeasurement)
    (hh : userCalHotGroundTruth ≠ 0) :
    (setUserCalibration2P tz userCalColdGroundTruth userCalColdMeasurement
        userCalHotGroundTruth userCalHotMeasurement isEnabled)._userCalOffsetCorrection =
      userCalColdMeasurement -
        userCalColdGroundTruth * (userCalHotMeasurement - userCalColdMeasurement) /
          (userCalHotGroundTruth - userCalColdGroundTruth) ∧
    (setUserCalibration2P tz userCalColdGroundTruth userCalColdMeasurement
        userCalHotGroundTruth userCalHotMeasurement isEnabled)._userCalGainCorrection =
      userCalHotGroundTruth / (userCalHotMeasurement -
        (setUserCalibration2P tz userCalColdGroundTruth userCalColdMeasurement
          userCalHotGroundTruth userCalHotMeasurement isEnabled)._userCalOffsetCorrection) ∧
    (userCalColdMeasurement -
        (setUserCalibration2P tz userCalColdGroundTruth userCalColdMeasurement
          userCalHotGroundTruth userCalHotMeasurement isEnabled)._userCalOffsetCorrection) *
      (setUserCalibration2P tz userCalColdGroundTruth userCalColdMeasurement
        userCalHotGroundTruth userCalHotMeasurement isEnabled)._userCalGainCorrection =
      userCalColdGroundTruth ∧
    (userCalHotMeasurement -
        (setUserCalibration2P tz userCalColdGroundTruth userCalColdMeasurement
          userCalHotGroundTruth userCalHotMeasurement isEnabled)._userCalOffsetCorrection) *
      (setUserCalibration2P tz userCalColdGroundTruth userCalColdMeasurement
        userCalHotGroundTruth userCalHotMeasurement isEnabled)._userCalGainCorrection =
      userCalHotGroundTruth := by
  have h1 : userCalHotGroundTruth - userCalColdGroundTruth ≠ 0 := sub_ne_zero.mpr htc
  have hmc' : userCalHotMeasurement - userCalColdMeasurement ≠ 0 := sub_ne_zero.mpr hmc
  have key : userCalHotMeasurement -
      (userCalColdMeasurement -
        userCalColdGroundTruth * (userCalHotMeasurement - userCalColdMeasurement) /
          (userCalHotGroundTruth - userCalColdGroundTruth)) =
      (userCalHotMeasurement - userCalColdMeasurement) * userCalHotGroundTruth /
        (userCalHotGroundTruth - userCalColdGroundTruth) := by
    field_simp
    ring
  have key2 : userCalColdMeasurement -
      (userCalColdMeasurement -
        userCalColdGroundTruth * (userCalHotMeasurement - userCalColdMeasurement) /
          (userCalHotGroundTruth - userCalColdGroundTruth)) =
      userCalColdGroundTruth * (userCalHotMeasurement - userCalColdMeasurement) /
        (userCalHotGroundTruth - userCalColdGroundTruth) := by
    ring
  refine ⟨rfl, rfl, ?_, ?_⟩
  · simp only [setUserCalibration2P]
    rw [key, key2]
    field_simp
    ring
  · simp only [setUserCalibration2P]
    rw [key]
    field_simp
    ring

/-- C4 witness: the two-point fit theorem at the concrete inputs
(cold_truth, cold_measured, hot_truth, hot_measured) = (10, 12, 100, 98). -/
theorem setUserCalibration2P_exact_two_point_fit_witness :
    (100 : ℚ) ≠ 10 ∧ (98 : ℚ) ≠ 12 ∧ (100 : ℚ) ≠ 0 ∧
    ((setUserCalibration2P tzZero 10 12 100 98 true)._userCalOffsetCorrection =
      12 - 10 * (98 - 12) / (100 - 10) ∧
     (setUserCalibration2P tzZero 10 12 100 98 true)._userCalGainCorrection =
      100 / (98 - (setUserCalibration2P tzZero 10 12 100 98 true)._userCalOffsetCorrection) ∧
     (12 - (setUserCalibration2P tzZero 10 12 100 98 true)._userCalOffsetCorrection) *
      (setUserCalibration2P tzZero 10 12 100 98 true)._userCalGainCorrection = 10 ∧
     (98 - (setUserCalibration2P tzZero 10 12 100 98 true)._userCalOffsetCorrection) *
      (setUserCalibration2P tzZero 10 12 100 98 true)._userCalGainCorrection = 100) :=
  ⟨by norm_num, by norm_num, by norm_num,
   setUserCalibration2P_exact_two_point_fit tzZero 10 12 100 98 true
     (by norm_num) (by norm_num) (by norm_num)⟩

/-- C4 counterexample: with cold_truth = 10, a nonzero value, the stored
offset and gain already realize the conventional two-point calibration
exactly (the correction maps 12 back to 10 and 98 to 100), so the stored
offset equals the conventional two-point intercept in a case with
cold_truth different from 0, refuting the only-if-zero clause. -/
theorem setUserCalibration2P_matches_intercept_with_nonzero_cold_truth :
    (10 : ℚ) ≠ 0 ∧
    (12 - (setUserCalibration2P tzZero 10 12 100 98 true)._userCalOffsetCorrection) *
      (setUserCalibration2P tzZero 10 12 100 98 true)._userCalGainCorrection = 10 ∧
    (98 - (setUserCalibration2P tzZero 10 12 100 98 true)._userCalOffsetCorrection) *
      (setUserCalibration2P tzZero 10 12 100 98 true)._userCalGainCorrection = 100 := by
  norm_num [setUserCalibration2P, tzZero]

/-- C5: on exit from readInternalTemperatureRaw, the four snapshotted ADC
settings, the control-B register, the sample-timing register, the input
gain field and the reference-select field, hold exactly their entry
values, for every entry state, averaging mode and pair of conversion
results. -/
theorem readInternalTemperatureRaw_restores_saved_settings
    (averaging : Nat) (s0 : AdcState) (conv1 conv2 : Nat) :
    ((readInternalTemperatureRaw averaging s0 conv1 conv2).1).ctrlb = s0.ctrlb ∧
    ((readInternalTemperatureRaw averaging s0 conv1 conv2).1).sampctrl = s0.sampctrl ∧
    ((readInternalTemperatureRaw averaging s0 conv1 conv2).1).gain = s0.gain ∧
    ((readInternalTemperatureRaw averaging s0 conv1 conv2).1).refsel = s0.refsel :=
  ⟨rfl, rfl, rfl, rfl⟩

/-- C6: the two snapshot variables of lines 129-130 both capture SAMPCTRL,
AVGCTRL is never snapshotted, and after a read with a valid averaging mode
the exit AVGCTRL equals the value written by that read's averaging switch,
an expression independent of the register's entry value. -/
theorem readInternalTemperatureRaw_avgctrl_written_not_restored
    (averaging : Nat) (s0 : AdcState) (conv1 conv2 : Nat)
    (hvalid : averaging ≤ TZ_AVERAGING_256) :
    oldSampling_of s0 = s0.sampctrl ∧
    oldSampleAveraging_of s0 = s0.sampctrl ∧
    ((readInternalTemperatureRaw averaging s0 conv1 conv2).1).avgctrl =
      avgctrlSwitch averaging 0 := by
  refine ⟨rfl, rfl, ?_⟩
  have h : ((readInternalTemperatureRaw averaging s0 conv1 conv2).1).avgctrl =
      avgctrlSwitch averaging s0.avgctrl := rfl
  rw [h]
  simp only [TZ_AVERAGING_256] at hvalid
  interval_cases averaging <;> rfl

/-- C6 witness: a read in 64-sample mode from an entry state whose AVGCTRL
holds 9; on exit AVGCTRL holds the switch value, not 9. -/
theorem readInternalTemperatureRaw_avgctrl_written_not_restored_witness :
    TZ_AVERAGING_64 ≤ TZ_AVERAGING_256 ∧
    (oldSampling_of ⟨1, 2, 3, 4, 5, 6, 7, 9, false, 0⟩ = 2 ∧
     oldSampleAveraging_of ⟨1, 2, 3, 4, 5, 6, 7, 9, false, 0⟩ = 2 ∧
     ((readInternalTemperatureRaw TZ_AVERAGING_64
        ⟨1, 2, 3, 4, 5, 6, 7, 9, false, 0⟩ 0 0).1).avgctrl =
       avgctrlSwitch TZ_AVERAGING_64 0) :=
  ⟨by decide, readInternalTemperatureRaw_avgctrl_written_not_restored
    TZ_AVERAGING_64 ⟨1, 2, 3, 4, 5, 6, 7, 9, false, 0⟩ 0 0 (by decide)⟩

/-- C7: an averaging value beyond the nine enumerated modes leaves AVGCTRL
holding exactly its entry value, and each of the nine modes writes its
SAMPLENUM together with ADJRES 0, 1, 2, 3 for 1, 2, 4, 8 samples and
ADJRES 4 for every mode of 16 samples or more. -/
theorem readInternalTemperatureRaw_avgctrl_switch_behavior
    (averaging : Nat) (s0 : AdcState) (conv1 conv2 : Nat) :
    (TZ_AVERAGING_256 < averaging →
      ((readInternalTemperatureRaw averaging s0 conv1 conv2).1).avgctrl = s0.avgctrl) ∧
    ((readInternalTemperatureRaw TZ_AVERAGING_1 s0 conv1 conv2).1).avgctrl = 0 ∧
    ((readInternalTemperatureRaw TZ_AVERAGING_2 s0 conv1 conv2).1).avgctrl =
      (ADC_AVGCTRL_SAMPLENUM_2 ||| ADC_AVGCTRL_ADJRES 0x1) ∧
    ((readInternalTemperatureRaw TZ_AVERAGING_4 s0 conv1 conv2).1).avgctrl =
      (ADC_AVGCTRL_SAMPLENUM_4 ||| ADC_AVGCTRL_ADJRES 0x2) ∧
    ((readInternalTemperatureRaw TZ_AVERAGING_8 s0 conv1 conv2).1).avgctrl =
      (ADC_AVGCTRL_SAMPLENUM_8 ||| ADC_AVGCTRL_ADJRES 0x3) ∧
    ((readInternalTemperatureRaw TZ_AVERAGING_16 s0 conv1 conv2).1).avgctrl =
      (ADC_AVGCTRL_SAMPLENUM_16 ||| ADC_AVGCTRL_ADJRES 0x4) ∧
    ((readInternalTemperatureRaw TZ_AVERAGING_32 s0 conv1 conv2).1).avgctrl =
      (ADC_AVGCTRL_SAMPLENUM_32 ||| ADC_AVGCTRL_ADJRES 0x4) ∧
    ((readInternalTemperatureRaw TZ_AVERAGING_64 s0 conv1 conv2).1).avgctrl =
      (ADC_AVGCTRL_SAMPLENUM_64 ||| ADC_AVGCTRL_ADJRES 0x4) ∧
    ((readInternalTemperatureRaw TZ_AVERAGING_128 s0 conv1 conv2).1).avgctrl =
      (ADC_AVGCTRL_SAMPLENUM_128 ||| ADC_AVGCTRL_ADJRES 0x4) ∧
    ((readInternalTemperatureRaw TZ_AVERAGING_256 s0 conv1 conv2).1).avgctrl =
      (ADC_AVGCTRL_SAMPLENUM_256 ||| ADC_AVGCTRL_ADJRES 0x4) := by
  refine ⟨?_, rfl, rfl, rfl, rfl, rfl, rfl, rfl, rfl, rfl⟩
  intro hbig
  have h : ((readInternalTemperatureRaw averaging s0 conv1 conv2).1).avgctrl =
      avgctrlSwitch averaging s0.avgctrl := rfl
  rw [h]
  simp only [TZ_AVERAGING_256] at hbig
  simp only [avgctrlSwitch, TZ_AVERAGING_1, TZ_AVERAGING_2, TZ_AVERAGING_4, TZ_AVERAGING_8,
    TZ_AVERAGING_16, TZ_AVERAGING_32, TZ_AVERAGING_64, TZ_AVERAGING_128, TZ_AVERAGING_256]
  split_ifs <;> omega

/-- C7 witness: averaging value 42 matches no enumerated mode; a read from
an entry state whose AVGCTRL holds 9 exits with AVGCTRL still 9. -/
theorem readInternalTemperatureRaw_avgctrl_switch_behavior_witness :
    TZ_AVERAGING_256 < 42 ∧
    ((readInternalTemperatureRaw 42 ⟨1, 2, 3, 4, 5, 6, 7, 9, false, 0⟩ 0 0).1).avgctrl = 9 :=
  ⟨by decide, (readInternalTemperatureRaw_avgctrl_switch_behavior
    42 ⟨1, 2, 3, 4, 5, 6, 7, 9, false, 0⟩ 0 0).1 (by decide)⟩

/-- C8 (amended): convert_dec_to_frac maps d to d/10 for d below 10, to
d/100 for d from 10 to 99, and to d/1000 for every larger d it accepts;
the spec's test entries at 5, 50, 9 and 99 hold, but the arguments 500 and
999 exceed the uint8 parameter and are narrowed modulo 256 to 244 and
231, so those calls return 0.244 and 0.231, not 0.5 and 0.999. -/
theorem convert_dec_to_frac_piecewise_and_vector (d : Nat) :
    (d < 10 → convert_dec_to_frac d = (d : ℚ) / 10) ∧
    (10 ≤ d → d < 100 → convert_dec_to_frac d = (d : ℚ) / 100) ∧
    (100 ≤ d → convert_dec_to_frac d = (d : ℚ) / 1000) ∧
    convert_dec_to_frac_call 5 = 5 / 10 ∧
    convert_dec_to_frac_call 50 = 50 / 100 ∧
    convert_dec_to_frac_call 9 = 9 / 10 ∧
    convert_dec_to_frac_call 99 = 99 / 100 ∧
    convert_dec_to_frac_call 500 = 244 / 1000 ∧
    convert_dec_to_frac_call 999 = 231 / 1000 := by
  refine ⟨?_, ?_, ?_, ?_, ?_, ?_, ?_, ?_, ?_⟩
  · intro h; simp [convert_dec_to_frac, h]
  · intro h1 h2; simp [convert_dec_to_frac, Nat.not_lt.mpr h1, h2]
  · intro h
    have h1 : ¬ d < 10 := by omega
    have h2 : ¬ d < 100 := by omega
    simp [convert_dec_to_frac, h1, h2]
  all_goals norm_num [convert_dec_to_frac_call, convert_dec_to_frac]

/-- C8 witness: the piecewise description applied at 5, 55 and 244, and
the narrowed call with argument 500. -/
theorem convert_dec_to_frac_piecewise_and_vector_witness :
    (5 < 10 ∧ convert_dec_to_frac 5 = (5 : ℚ) / 10) ∧
    (10 ≤ 55 ∧ 55 < 100 ∧ convert_dec_to_frac 55 = (55 : ℚ) / 100) ∧
    (100 ≤ 244 ∧ convert_dec_to_frac 244 = (244 : ℚ) / 1000) ∧
    convert_dec_to_frac_call 500 = 244 / 1000 :=
  ⟨⟨by decide, (convert_dec_to_frac_piecewise_and_vector 5).1 (by decide)⟩,
   ⟨by decide, by decide,
     (convert_dec_to_frac_piecewise_and_vector 55).2.1 (by decide) (by decide)⟩,
   ⟨by decide, (convert_dec_to_frac_piecewise_and_vector 244).2.2.1 (by decide)⟩,
   (convert_dec_to_frac_piecewise_and_vector 0).2.2.2.2.2.2.2.1⟩

/-- C8 counterexample: calling convert_dec_to_frac with 500 or 999 narrows
the argument to uint8, returning 0.244 and 0.231 instead of the spec test
vector's 0.5 and 0.999. -/
theorem convert_dec_to_frac_vector_fails_beyond_uint8 :
    convert_dec_to_frac_call 500 ≠ 5 / 10 ∧
    convert_dec_to_frac_call 999 ≠ 999 / 1000 := by
  norm_num [convert_dec_to_frac_call, convert_dec_to_frac]

/-- C9: for every object state and raw reading, the identity user
calibration (gain 1, offset 0, enabled) produces exactly the same
raw2temp output as user calibration disabled. -/
theorem raw2temp_identity_user_cal_noop (tz : TemperatureZero) (adcReading : Nat) :
    raw2temp (setUserCalibration tz 1 0 true) adcReading =
      raw2temp (enableUserCalibration tz false) adcReading := by
  simp [raw2temp, setUserCalibration, enableUserCalibration]

/-- C10: raw2temp is a pure observer: its state-passing form returns the
object with every member field unchanged, its value is the pure function
raw2temp of the input state and reading, and repeating the call on the
returned state with the same reading returns the same pair. -/
theorem raw2temp_pure_observer (tz : TemperatureZero) (adcReading : Nat) :
    (raw2tempM tz adcReading).1 = tz ∧
    (raw2tempM tz adcReading).2 = raw2temp tz adcReading ∧
    raw2tempM (raw2tempM tz adcReading).1 adcReading = raw2tempM tz adcReading :=
  ⟨rfl, rfl, rfl⟩

end TemperatureZero
